import Mathlib

/-!
Verification of the sizing engine of the Industrial Gas / Air Line sizing tool.

The definitions below are a shallow embedding of `src/services/sizingService.ts`
(with its data contracts from the repository's type declarations and
`src/constants.ts`).  JavaScript numbers are modelled as exact rationals (`ℚ`);
the transcendental primitives the code uses (`Math.pow` with fractional
exponents, `Math.log10`, `Math.sqrt`) are abstracted into a `FloatOps`
parameter, since no claim depends on their float-level values: theorems either
hold for every interpretation of these primitives, assume only monotonicity /
nonnegativity of them, or are settled on inputs whose evaluation never reaches
them (the laminar branch of the friction-factor function is transcendental
free).  `Math.PI` is embedded as the exact rational value of the IEEE double
constant.  JavaScript `Infinity` (only produced by the tank coverage-time
computation) is modelled as `Option ℚ` with `none` standing for `Infinity`.
The purely diagnostic `details` / trace outputs of the service are omitted:
they feed no claim and no other output depends on them.
-/

namespace GasSizing

/-- `P_ATM_PSIA` from `src/constants.ts` (14.7). -/
def P_ATM_PSIA : ℚ := 147/10

/-- `G_C_LBM_FT_LBF_S2` from `src/constants.ts` (32.174). -/
def G_C_LBM_FT_LBF_S2 : ℚ := 32174/1000

/-- `GALLONS_PER_FT3` from `src/constants.ts` (7.48). -/
def GALLONS_PER_FT3 : ℚ := 748/100

/-- Exact rational value of the IEEE-754 double `Math.PI`. -/
def mathPI : ℚ := 3141592653589793/1000000000000000

/-- `GasType` from the repository's type declarations. -/
inductive GasType
  | air
  | naturalGas
deriving DecidableEq, Repr

/-- One row of `GAS_PROPERTIES` from `src/constants.ts` (display name omitted). -/
structure GasProps where
  R : ℚ
  nu : ℚ
deriving DecidableEq, Repr

/-- `GAS_PROPERTIES` from `src/constants.ts`. -/
def GAS_PROPERTIES : GasType → GasProps
  | .air => { R := 5335/100, nu := 16/100000 }
  | .naturalGas => { R := 965/10, nu := 172/1000000 }

/-- The float primitives used by the solver (`Math.pow`, `Math.log10`,
`Math.sqrt`), abstracted: every embedded function takes them as a parameter. -/
structure FloatOps where
  powf : ℚ → ℚ → ℚ
  log10 : ℚ → ℚ
  sqrt : ℚ → ℚ

/-- `SystemInputs` from the repository's type declarations. -/
structure SystemInputs where
  inletPressure : ℚ
  availableCompressorFlow : ℚ
  minOutletPressure : ℚ
  maxTypicalOutletPressure : ℚ
  demandSafetyFactor : ℚ
  tankVolume : ℚ
  gasType : GasType
deriving DecidableEq, Repr

/-- `HeaderGeometry` from the repository's type declarations. -/
structure HeaderGeometry where
  headerLength : ℚ
  maxLineVelocity : ℚ
  pipeRoughness : ℚ
  airTemperature : ℚ
deriving DecidableEq, Repr

/-- `PipeSize` from the repository's type declarations. -/
structure PipeSize where
  nominal : String
  id_in : ℚ
  selected : Bool
deriving DecidableEq, Repr

/-- `SubDrop` from the repository's type declarations (the `id` field is
carried along but never read by the engine; kept for fidelity). -/
structure SubDrop where
  id : String
  name : String
  length : ℚ
  reqPressure : ℚ
  reqFlow : ℚ
deriving DecidableEq, Repr

/-- `Drop` from the repository's type declarations. -/
structure Drop where
  id : String
  name : String
  length : ℚ
  reqPressure : ℚ
  reqFlow : ℚ
  subDrops : List SubDrop
deriving DecidableEq, Repr

/-- `SizingStatus` from the repository's type declarations. -/
inductive SizingStatus
  | OK
  | HighVelocity
  | InsufficientOutletPressure
  | ExcessiveDP
  | HighVelocityExcessiveDP
  | Inactive
  | NoFeasibleSize
deriving DecidableEq, Repr

/-- The severity tier `'ok' | 'warn' | 'bad'`. -/
inductive Severity
  | ok
  | warn
  | bad
deriving DecidableEq, Repr

/-- `SizingResultRow` from the repository's type declarations
(`outletPressure` is `null` for drop/sub-drop rows, hence `Option ℚ`). -/
structure SizingResultRow where
  nominal : String
  id_in : ℚ
  velocity : ℚ
  deltaP : ℚ
  outletPressure : Option ℚ
  status : SizingStatus
  severity : Severity
deriving DecidableEq, Repr

/-- `toAbsRankine` from `src/services/sizingService.ts`. -/
def toAbsRankine (tempF : ℚ) : ℚ := tempF + 45967/100

/-- `swameeJainFrictionFactor` from `src/services/sizingService.ts`. -/
def swameeJainFrictionFactor (ops : FloatOps) (roughness_ft diameter_ft reynoldsNumber : ℚ) : ℚ :=
  if reynoldsNumber ≤ 2300 then 64 / reynoldsNumber
  else
    let term1 := roughness_ft / (37/10 * diameter_ft)
    let term2 := (574/100) / ops.powf reynoldsNumber (9/10)
    let logTerm := ops.log10 (term1 + term2)
    (1/4) / (logTerm * logTerm)

/-- `calculateSeverity` from `src/services/sizingService.ts`. -/
def calculateSeverity (isOk : Bool) (velocity maxVelocity deltaP allowedDeltaP : ℚ) : Severity :=
  if isOk then .ok
  else if velocity > 3/2 * maxVelocity ∨ (allowedDeltaP > 0 ∧ deltaP > 3/2 * allowedDeltaP)
  then .bad else .warn

/-- Per-candidate outcome of the physical-branch evaluation: the pressure
drop, the (gauge) outlet pressure and the velocity the branch computes. -/
structure CandEval where
  deltaP : ℚ
  p_out : ℚ
  v : ℚ
deriving DecidableEq, Repr

/-- The squared-outlet-pressure value `p2_sq = p1² − L·(Q/(2207·D^2.582))^(1/0.522)`
computed by the natural-gas (IFGC 402.4.1) branch of both `sizePipe` and
`calculateHeaderSizing`. -/
def fuelP2sq (ops : FloatOps) (flowScfm length_ft p_in_abs_psia d_in : ℚ) : ℚ :=
  let flowScfh := flowScfm * 60
  let p1_sq := p_in_abs_psia * p_in_abs_psia
  let term_in_parens := flowScfh / (2207 * ops.powf d_in (2582/1000))
  let delta_p_sq := length_ft * ops.powf term_in_parens (1 / (522/1000))
  p1_sq - delta_p_sq

/-- The natural-gas (IFGC 402.4.1) closed-form branch shared verbatim by
`sizePipe` and `calculateHeaderSizing`: outlet pressure from the inverted code
formula (clamped to zero absolute pressure when `p2_sq < 0`), pressure drop,
and velocity from the actual flow at mean absolute pressure. -/
def fuelGasCandidate (ops : FloatOps) (flowScfm length_ft upstreamPressure_psig p_in_abs_psia d_in area_ft2 : ℚ) : CandEval :=
  let flowScfh := flowScfm * 60
  let p_out_psig :=
    if flowScfh > 0 then
      let p2_sq := fuelP2sq ops flowScfm length_ft p_in_abs_psia d_in
      if p2_sq < 0 then -P_ATM_PSIA
      else ops.sqrt p2_sq - P_ATM_PSIA
    else upstreamPressure_psig
  let deltaP_psi := upstreamPressure_psig - p_out_psig
  let p_out_abs_psia := p_out_psig + P_ATM_PSIA
  let p_avg_abs_psia := (p_in_abs_psia + p_out_abs_psia) / 2
  let q_acfm := flowScfm * (P_ATM_PSIA / p_avg_abs_psia)
  let q_cfs := q_acfm / 60
  { deltaP := deltaP_psi, p_out := p_out_psig, v := q_cfs / area_ft2 }

/-- State of the compressed-air fixed-point iteration: the outlet-pressure
iterate together with the velocity, Reynolds number, friction factor and
pressure drop computed in the most recent pass. -/
structure AirState where
  p_out_psig : ℚ
  v_fts : ℚ
  re : ℚ
  f : ℚ
  deltaP_psi : ℚ
deriving DecidableEq, Repr

/-- One pass of the iterative Darcy–Weisbach loop shared verbatim by
`sizePipe` and `calculateHeaderSizing` (the two differ only in the seed). -/
def airStep (ops : FloatOps) (flowScfm length_ft upstreamPressure_psig p_in_abs_psia t_abs_R R nu pipeRoughness_ft d_ft area_ft2 : ℚ) (s : AirState) : AirState :=
  let p_out_abs := s.p_out_psig + P_ATM_PSIA
  let p_avg_abs := (p_in_abs_psia + p_out_abs) / 2
  let rho := (p_avg_abs * 144) / (R * t_abs_R)
  let q_acfm := flowScfm * (P_ATM_PSIA / p_avg_abs)
  let q_cfs := q_acfm / 60
  let v := q_cfs / area_ft2
  let re := (v * d_ft) / nu
  let f := swameeJainFrictionFactor ops pipeRoughness_ft d_ft re
  let deltaP_lbf_ft2 := f * (length_ft / d_ft) * (rho * v * v) / (2 * G_C_LBM_FT_LBF_S2)
  let deltaP_psi := deltaP_lbf_ft2 / 144
  { p_out_psig := upstreamPressure_psig - deltaP_psi
    v_fts := v, re := re, f := f, deltaP_psi := deltaP_psi }

/-- The compressed-air branch: exactly five passes of `airStep` (the source
loop `for (let i = 0; i < 5; i++)`), written as five explicit applications,
started from the given seed for the outlet-pressure iterate. -/
def airCandidate (ops : FloatOps) (flowScfm length_ft upstreamPressure_psig p_in_abs_psia t_abs_R R nu pipeRoughness_ft d_ft area_ft2 seed : ℚ) : CandEval :=
  let step := airStep ops flowScfm length_ft upstreamPressure_psig p_in_abs_psia t_abs_R R nu pipeRoughness_ft d_ft area_ft2
  let s := step (step (step (step (step
    { p_out_psig := seed, v_fts := 0, re := 0, f := 0, deltaP_psi := 0 }))))
  { deltaP := s.deltaP_psi, p_out := s.p_out_psig, v := s.v_fts }

/-- Result record of `sizePipe` (the diagnostic `details` field is omitted). -/
structure SizePipeResult where
  table : List SizingResultRow
  recommended : String
  velocity : ℚ
  deltaP : ℚ
  status : SizingStatus
deriving DecidableEq, Repr

/-- The per-candidate body of the `sizePipe` loop: branch on gas kind, then
classify by velocity ceiling and allowed pressure drop. -/
def sizePipeRow (ops : FloatOps) (flowScfm length_ft upstreamPressure_psig requiredOutletPressure_psig maxVelocity_fts airTemperature_F pipeRoughness_ft : ℚ) (gasType : GasType) (pipe : PipeSize) : SizingResultRow :=
  let GAS := GAS_PROPERTIES gasType
  let t_abs_R := toAbsRankine airTemperature_F
  let p_in_abs_psia := upstreamPressure_psig + P_ATM_PSIA
  let allowedDeltaP := max (1/1000000) (upstreamPressure_psig - requiredOutletPressure_psig)
  let d_in := pipe.id_in
  let d_ft := d_in / 12
  let area_ft2 := (mathPI * d_ft * d_ft) / 4
  let ce :=
    match gasType with
    | .naturalGas => fuelGasCandidate ops flowScfm length_ft upstreamPressure_psig p_in_abs_psia d_in area_ft2
    | .air => airCandidate ops flowScfm length_ft upstreamPressure_psig p_in_abs_psia t_abs_R GAS.R GAS.nu pipeRoughness_ft d_ft area_ft2 requiredOutletPressure_psig
  let velocityOk := ce.v ≤ maxVelocity_fts
  let pressureOk := ce.deltaP ≤ allowedDeltaP
  let status : SizingStatus :=
    if ¬velocityOk ∧ ¬pressureOk then .HighVelocityExcessiveDP
    else if ¬velocityOk then .HighVelocity
    else if ¬pressureOk then .ExcessiveDP
    else .OK
  { nominal := pipe.nominal, id_in := pipe.id_in, velocity := ce.v, deltaP := ce.deltaP
    outletPressure := none, status := status
    severity := calculateSeverity (decide (status = SizingStatus.OK)) ce.v maxVelocity_fts ce.deltaP allowedDeltaP }

/-- `sizePipe` from `src/services/sizingService.ts`. -/
def sizePipe (ops : FloatOps) (flowScfm length_ft upstreamPressure_psig requiredOutletPressure_psig maxVelocity_fts airTemperature_F pipeRoughness_ft : ℚ) (candidatePipes : List PipeSize) (gasType : GasType) : SizePipeResult :=
  if flowScfm ≤ 0 then
    { table := [], recommended := "N/A (Inactive)", velocity := 0, deltaP := 0, status := .Inactive }
  else
    let results := (candidatePipes.filter (·.selected)).map
      (sizePipeRow ops flowScfm length_ft upstreamPressure_psig requiredOutletPressure_psig maxVelocity_fts airTemperature_F pipeRoughness_ft gasType)
    let okSizes := results.filter (fun r => decide (r.status = SizingStatus.OK))
    let recommendedSize : String :=
      match okSizes.head? with
      | some r => r.nominal
      | none => "No feasible size"
    let recommendedResult := (results.find? (fun r => decide (r.nominal = recommendedSize))).orElse (fun _ => results.head?)
    { table := results
      recommended := recommendedSize
      velocity := (recommendedResult.map (·.velocity)).getD 0
      deltaP := (recommendedResult.map (·.deltaP)).getD 0
      status := (recommendedResult.map (·.status)).getD .NoFeasibleSize }

/-- `HeaderResults` from the repository's type declarations. -/
structure HeaderResults where
  recommendedSize : String
  outletPressure : ℚ
  designScfm : ℚ
  velocity : ℚ
  comparisonTable : List SizingResultRow
deriving DecidableEq, Repr

/-- The per-candidate body of the `calculateHeaderSizing` loop: the same two
physical branches as `sizePipe` (the air branch seeded with the inlet
pressure), classified by achieved outlet pressure and velocity ceiling. -/
def headerRow (ops : FloatOps) (designScfm : ℚ) (system : SystemInputs) (geometry : HeaderGeometry) (pipe : PipeSize) : SizingResultRow :=
  let GAS := GAS_PROPERTIES system.gasType
  let t_abs_R := toAbsRankine geometry.airTemperature
  let p_in_abs_psia := system.inletPressure + P_ATM_PSIA
  let d_in := pipe.id_in
  let d_ft := d_in / 12
  let area_ft2 := (mathPI * d_ft * d_ft) / 4
  let ce :=
    match system.gasType with
    | .naturalGas => fuelGasCandidate ops designScfm geometry.headerLength system.inletPressure p_in_abs_psia d_in area_ft2
    | .air => airCandidate ops designScfm geometry.headerLength system.inletPressure p_in_abs_psia t_abs_R GAS.R GAS.nu geometry.pipeRoughness d_ft area_ft2 system.inletPressure
  let pressureOk := ce.p_out ≥ system.minOutletPressure
  let velocityOk := ce.v ≤ geometry.maxLineVelocity
  let status : SizingStatus :=
    if ¬pressureOk ∧ ¬velocityOk then .HighVelocityExcessiveDP
    else if ¬velocityOk then .HighVelocity
    else if ¬pressureOk then .InsufficientOutletPressure
    else .OK
  { nominal := pipe.nominal, id_in := d_in, velocity := ce.v, deltaP := ce.deltaP
    outletPressure := some ce.p_out, status := status
    severity := calculateSeverity (decide (status = SizingStatus.OK)) ce.v geometry.maxLineVelocity ce.deltaP (system.inletPressure - system.minOutletPressure) }

/-- `calculateHeaderSizing` from `src/services/sizingService.ts` (the
diagnostic `details` output is omitted). -/
def calculateHeaderSizing (ops : FloatOps) (designScfm : ℚ) (system : SystemInputs) (geometry : HeaderGeometry) (pipes : List PipeSize) : Option HeaderResults :=
  let selectedPipes := pipes.filter (·.selected)
  if selectedPipes = [] ∨ designScfm ≤ 0 then none
  else
    let comparisonTable := selectedPipes.map (headerRow ops designScfm system geometry)
    let okSizes := comparisonTable.filter (fun r => decide (r.status = SizingStatus.OK))
    let recommendedSize : String :=
      match okSizes.head? with
      | some r => r.nominal
      | none => "No feasible size"
    let recommendedResult := comparisonTable.find? (fun r => decide (r.nominal = recommendedSize))
    some { recommendedSize := recommendedSize
           outletPressure := (recommendedResult.bind (·.outletPressure)).getD 0
           designScfm := designScfm
           velocity := (recommendedResult.map (·.velocity)).getD 0
           comparisonTable := comparisonTable }

/-- `TankMetrics` from the repository's type declarations
(`coverageTimeMinutes = none` models the JavaScript `Infinity`). -/
structure TankMetrics where
  equivalentStorageScf : ℚ
  referenceFlowScfm : ℚ
  coverageTimeMinutes : Option ℚ
  isCoveringDeficit : Bool
deriving DecidableEq, Repr

/-- `calculateTankMetrics` from `src/services/sizingService.ts`. -/
def calculateTankMetrics (system : SystemInputs) (totalDesignDemandScfm capacityMarginOrDeficitScfm : ℚ) : Option TankMetrics :=
  if system.tankVolume ≤ 0 then none
  else
    let p_in_abs_psia := system.inletPressure + P_ATM_PSIA
    let p_min_abs_psia := system.minOutletPressure + P_ATM_PSIA
    let v_tank_ft3 := system.tankVolume / GALLONS_PER_FT3
    let equivalentStorageScf := v_tank_ft3 * (p_in_abs_psia - p_min_abs_psia) / P_ATM_PSIA
    if totalDesignDemandScfm ≤ 0 then
      some { equivalentStorageScf := equivalentStorageScf
             referenceFlowScfm := 0
             coverageTimeMinutes := none
             isCoveringDeficit := false }
    else
      let isCoveringDeficit := capacityMarginOrDeficitScfm < 0
      let referenceFlowScfm :=
        if capacityMarginOrDeficitScfm < 0 then |capacityMarginOrDeficitScfm|
        else totalDesignDemandScfm
      let coverageTimeMinutes :=
        if referenceFlowScfm > 0 then some (equivalentStorageScf / referenceFlowScfm)
        else none
      some { equivalentStorageScf := equivalentStorageScf
             referenceFlowScfm := referenceFlowScfm
             coverageTimeMinutes := coverageTimeMinutes
             isCoveringDeficit := decide isCoveringDeficit }

/-- `SubDropResult` from the repository's type declarations. -/
structure SubDropResult where
  name : String
  reqPressure : ℚ
  reqFlow : ℚ
  length : ℚ
  recommendedSize : String
  status : SizingStatus
  velocity : ℚ
  deltaP : ℚ
  sizingOptions : List SizingResultRow
deriving DecidableEq, Repr

/-- `DropResult` from the repository's type declarations. -/
structure DropResult where
  id : String
  name : String
  length : ℚ
  reqPressure : ℚ
  reqFlow : ℚ
  subDropTotalFlow : ℚ
  usedFlow : ℚ
  isSizedOnSubDrops : Bool
  recommendedSize : String
  velocity : ℚ
  deltaP : ℚ
  comparisonTable : List SizingResultRow
  subDropResults : List SubDropResult
deriving DecidableEq, Repr

/-- The flow-unit divisor: natural-gas demand is entered per hour, so it is
divided by 60 to reach the internal SCFM unit (`flowDivisor` in the source). -/
def flowDivisor (gasType : GasType) : ℚ :=
  match gasType with
  | .naturalGas => 60
  | .air => 1

/-- The per-sub-drop body of the `calculateDropsSizing` loop: size the
sub-drop at its safety-factored design flow and pick up to three presentable
sizing options. -/
def sizeSubDrop (ops : FloatOps) (system : SystemInputs) (geometry : HeaderGeometry) (selectedPipes : List PipeSize) (sd : SubDrop) : SubDropResult :=
  let subDropDesignFlowScfm := (sd.reqFlow * system.demandSafetyFactor) / flowDivisor system.gasType
  let subDropSizing := sizePipe ops subDropDesignFlowScfm sd.length system.inletPressure sd.reqPressure geometry.maxLineVelocity geometry.airTemperature geometry.pipeRoughness selectedPipes system.gasType
  let okOptions := subDropSizing.table.filter (fun r => decide (r.severity = Severity.ok))
  let sizingOptions :=
    if okOptions.length > 0 then okOptions.take 3
    else subDropSizing.table.take 3
  { name := sd.name, reqPressure := sd.reqPressure, reqFlow := sd.reqFlow, length := sd.length
    recommendedSize := subDropSizing.recommended
    status := subDropSizing.status
    velocity := subDropSizing.velocity
    deltaP := subDropSizing.deltaP
    sizingOptions := sizingOptions }

/-- The per-drop body of the `calculateDropsSizing` loop: aggregate the
sub-drop demand, size the drop's own feed at the safety-factored design flow,
and size every sub-drop. -/
def sizeDrop (ops : FloatOps) (system : SystemInputs) (geometry : HeaderGeometry) (selectedPipes : List PipeSize) (drop : Drop) : DropResult :=
  let subDropTotalFlow := drop.subDrops.foldl (fun sum sd => sum + sd.reqFlow) 0
  let usedFlow := max drop.reqFlow subDropTotalFlow
  let designFlowScfm := (usedFlow * system.demandSafetyFactor) / flowDivisor system.gasType
  let dropSizing := sizePipe ops designFlowScfm drop.length system.inletPressure drop.reqPressure geometry.maxLineVelocity geometry.airTemperature geometry.pipeRoughness selectedPipes system.gasType
  let subDropResults := drop.subDrops.map (sizeSubDrop ops system geometry selectedPipes)
  { id := drop.id, name := drop.name, length := drop.length
    reqPressure := drop.reqPressure, reqFlow := drop.reqFlow
    subDropTotalFlow := subDropTotalFlow
    usedFlow := usedFlow
    isSizedOnSubDrops := decide (subDropTotalFlow > drop.reqFlow ∧ drop.reqFlow ≥ 0)
    recommendedSize := dropSizing.recommended
    velocity := dropSizing.velocity
    deltaP := dropSizing.deltaP
    comparisonTable := dropSizing.table
    subDropResults := subDropResults }

/-- `calculateDropsSizing` from `src/services/sizingService.ts` (the
diagnostic sample-drop details output is omitted). -/
def calculateDropsSizing (ops : FloatOps) (drops : List Drop) (system : SystemInputs) (geometry : HeaderGeometry) (pipes : List PipeSize) : List DropResult :=
  let selectedPipes := pipes.filter (·.selected)
  if selectedPipes = [] then []
  else drops.map (sizeDrop ops system geometry selectedPipes)

/-- The capacity verdict of `performAllCalculations`. -/
inductive CapacityStatus
  | OK
  | SHORTFALL
  | NoDemand
deriving DecidableEq, Repr

/-- `CalculationResults` from the repository's type declarations (the
diagnostic `details` field is omitted). -/
structure CalculationResults where
  totalDemandScfm : ℚ
  totalDesignDemandScfm : ℚ
  capacityStatus : CapacityStatus
  capacityMarginOrDeficitScfm : ℚ
  headerDesignScfm : ℚ
  header : Option HeaderResults
  drops : List DropResult
  tankMetrics : Option TankMetrics
deriving DecidableEq, Repr

/-- `performAllCalculations` from `src/services/sizingService.ts`. -/
def performAllCalculations (ops : FloatOps) (systemInputs : SystemInputs) (headerGeometry : HeaderGeometry) (candidatePipes : List PipeSize) (drops : List Drop) : CalculationResults :=
  let fd := flowDivisor systemInputs.gasType
  let dropResults := calculateDropsSizing ops drops systemInputs headerGeometry candidatePipes
  let totalDemandScfm := dropResults.foldl (fun sum dr => sum + dr.usedFlow / fd) 0
  let totalDesignDemandScfm := totalDemandScfm * systemInputs.demandSafetyFactor
  let availableFlowScfm := systemInputs.availableCompressorFlow / fd
  let capacityMarginOrDeficitScfm :=
    if totalDesignDemandScfm > 0 then availableFlowScfm - totalDesignDemandScfm
    else availableFlowScfm
  let capacityStatus : CapacityStatus :=
    if totalDesignDemandScfm > 0 then
      (if capacityMarginOrDeficitScfm ≥ 0 then .OK else .SHORTFALL)
    else .NoDemand
  let headerDesignScfm := min availableFlowScfm totalDesignDemandScfm
  let headerResults := calculateHeaderSizing ops headerDesignScfm systemInputs headerGeometry candidatePipes
  let tankMetrics := calculateTankMetrics systemInputs totalDesignDemandScfm capacityMarginOrDeficitScfm
  { totalDemandScfm := totalDemandScfm
    totalDesignDemandScfm := totalDesignDemandScfm
    capacityStatus := capacityStatus
    capacityMarginOrDeficitScfm := capacityMarginOrDeficitScfm
    headerDesignScfm := headerDesignScfm
    header := headerResults
    drops := dropResults
    tankMetrics := tankMetrics }

end GasSizing

namespace GasSizing

/-! ## Concrete interpretations of the float primitives and input fixtures

Used to settle claims on concrete inputs.  `idOps` interprets every
primitive as an identity-like function; all concrete evaluations that matter
for laminar-regime counterexamples never reach the primitives at all. -/

/-- Identity-like interpretation of the abstracted float primitives. -/
def idOps : FloatOps := { powf := fun a _ => a, log10 := fun x => x, sqrt := fun x => x }

/-- Interpretation with a constant `log10`, used to keep the turbulent
friction factor at `0.25` in concrete evaluations. -/
def constLogOps : FloatOps := { powf := fun a _ => a, log10 := fun _ => 1, sqrt := fun x => x }

/-- A compressed-air system fixture. -/
def sysAir : SystemInputs :=
  { inletPressure := 100, availableCompressorFlow := 500, minOutletPressure := 90
    maxTypicalOutletPressure := 95, demandSafetyFactor := 1, tankVolume := 0, gasType := .air }

/-- A standard geometry fixture. -/
def geoStd : HeaderGeometry :=
  { headerLength := 100, maxLineVelocity := 50, pipeRoughness := 15/100000, airTemperature := 70 }

/-- A single 12-inch-ID candidate pipe. -/
def pipe12 : PipeSize := { nominal := "H1", id_in := 12, selected := true }

/-! ## Helper lemmas -/

/-- `calculateSeverity` yields the `ok` tier exactly for an `OK` first argument. -/
theorem calculateSeverity_ok_iff (b : Bool) (v mv dp adp : ℚ) :
    calculateSeverity b v mv dp adp = .ok ↔ b = true := by
  cases b
  · simp only [calculateSeverity, Bool.false_eq_true, if_false]
    split_ifs <;> simp
  · simp [calculateSeverity]

/-- On a failing row `calculateSeverity` yields `warn` or `bad`. -/
theorem calculateSeverity_false (v mv dp adp : ℚ) :
    calculateSeverity false v mv dp adp = .warn ∨ calculateSeverity false v mv dp adp = .bad := by
  simp only [calculateSeverity, Bool.false_eq_true, if_false]
  split_ifs <;> simp

/-- A nonempty prefix of a nonempty list. -/
theorem take_three_ne_nil {α : Type} {l : List α} (h : l ≠ []) : l.take 3 ≠ [] := by
  cases l with
  | nil => exact absurd rfl h
  | cons a t => simp [List.take]

/-! ## Claim C6 -/

/-- C6: for every segment evaluation with flow ≤ 0, regardless of all other
parameters, `sizePipe` returns an empty comparison table, status `Inactive`,
the inactive-sentinel recommended label, and zero velocity and pressure drop,
performing no further computation. -/
theorem c6_inactive (ops : FloatOps) (flowScfm length_ft up ref maxV tF rough : ℚ)
    (pipes : List PipeSize) (gas : GasType) (h : flowScfm ≤ 0) :
    sizePipe ops flowScfm length_ft up ref maxV tF rough pipes gas =
      { table := [], recommended := "N/A (Inactive)", velocity := 0, deltaP := 0
        status := .Inactive } := by
  simp only [sizePipe]
  rw [if_pos h]

/-- Witness for C6 at flow = 0. -/
theorem c6_inactive_witness :
    (0:ℚ) ≤ 0 ∧
    sizePipe idOps 0 1 1 1 1 1 1 [pipe12] GasType.air =
      { table := [], recommended := "N/A (Inactive)", velocity := 0, deltaP := 0
        status := .Inactive } :=
  ⟨le_refl 0, c6_inactive idOps 0 1 1 1 1 1 1 [pipe12] GasType.air (le_refl 0)⟩

/-! ## Claim C2 -/

/-- C2: for every Drop node (when the candidate list has a selected pipe, so
the aggregator evaluates the tree), the aggregator computes
`usedFlow = max(declared reqFlow, sum of sub-drop reqFlows)`, sets the
sized-on-children flag exactly when the sub-drop sum strictly exceeds the
declared flow and the declared flow is non-negative, and sizes the drop feed
via `sizePipe` at design flow `usedFlow × safetyFactor` (converted by the
gas-kind flow divisor). -/
theorem c2_drop_aggregation (ops : FloatOps) (drops : List Drop) (system : SystemInputs)
    (geometry : HeaderGeometry) (pipes : List PipeSize)
    (hsel : pipes.filter (fun p => p.selected) ≠ []) (i : ℕ) (hi : i < drops.length) :
    ∃ dr : DropResult,
      (calculateDropsSizing ops drops system geometry pipes).get? i = some dr ∧
      dr.usedFlow = max (drops.get ⟨i, hi⟩).reqFlow
        ((drops.get ⟨i, hi⟩).subDrops.foldl (fun sum sd => sum + sd.reqFlow) 0) ∧
      (dr.isSizedOnSubDrops = true ↔
        ((drops.get ⟨i, hi⟩).subDrops.foldl (fun sum sd => sum + sd.reqFlow) 0 >
            (drops.get ⟨i, hi⟩).reqFlow ∧ (drops.get ⟨i, hi⟩).reqFlow ≥ 0)) ∧
      dr.comparisonTable =
        (sizePipe ops ((dr.usedFlow * system.demandSafetyFactor) / flowDivisor system.gasType)
          (drops.get ⟨i, hi⟩).length system.inletPressure (drops.get ⟨i, hi⟩).reqPressure
          geometry.maxLineVelocity geometry.airTemperature geometry.pipeRoughness
          (pipes.filter (fun p => p.selected)) system.gasType).table ∧
      dr.recommendedSize =
        (sizePipe ops ((dr.usedFlow * system.demandSafetyFactor) / flowDivisor system.gasType)
          (drops.get ⟨i, hi⟩).length system.inletPressure (drops.get ⟨i, hi⟩).reqPressure
          geometry.maxLineVelocity geometry.airTemperature geometry.pipeRoughness
          (pipes.filter (fun p => p.selected)) system.gasType).recommended := by
  refine ⟨sizeDrop ops system geometry (pipes.filter (fun p => p.selected)) (drops.get ⟨i, hi⟩),
    ?_, rfl, ?_, rfl, rfl⟩
  · rw [calculateDropsSizing, if_neg hsel, List.get?_map, List.get?_eq_get hi]
    rfl
  · simp only [sizeDrop, decide_eq_true_eq]

/-- Witness for C2: the worked example of the specification — a drop with
declared flow 50 and two sub-drops of 30 and 40 has usedFlow 70 and is
flagged sized-on-children. -/
theorem c2_drop_aggregation_witness :
    ∃ dr : DropResult,
      (calculateDropsSizing idOps
        [{ id := "d1", name := "D1", length := 10, reqPressure := 90, reqFlow := 50
           subDrops := [{ id := "s1", name := "S1", length := 5, reqPressure := 90, reqFlow := 30 },
                        { id := "s2", name := "S2", length := 5, reqPressure := 90, reqFlow := 40 }] }]
        sysAir geoStd [pipe12]).get? 0 = some dr ∧
      dr.usedFlow = 70 ∧ dr.isSizedOnSubDrops = true := by
  obtain ⟨dr, h1, h2, h3, _, _⟩ :=
    c2_drop_aggregation idOps
      [{ id := "d1", name := "D1", length := 10, reqPressure := 90, reqFlow := 50
         subDrops := [{ id := "s1", name := "S1", length := 5, reqPressure := 90, reqFlow := 30 },
                      { id := "s2", name := "S2", length := 5, reqPressure := 90, reqFlow := 40 }] }]
      sysAir geoStd [pipe12] (by simp [pipe12]) 0 (by simp)
  refine ⟨dr, h1, ?_, h3.mpr (by norm_num)⟩
  rw [h2]; norm_num

/-! ## Claim C3 (amended) -/

/-- C3 (amended): the reported `capacityMarginOrDeficit` equals
`availableFlow − designDemand` whenever `designDemand > 0`, with status `OK`
for a non-negative margin and `SHORTFALL` for a negative one; when
`designDemand ≤ 0` the status is `No demand` and the reported margin is the
available flow itself (which equals `availableFlow − designDemand` only when
`designDemand = 0`). -/
theorem c3_capacity (ops : FloatOps) (sys : SystemInputs) (geo : HeaderGeometry)
    (pipes : List PipeSize) (drops : List Drop) :
    (0 < (performAllCalculations ops sys geo pipes drops).totalDesignDemandScfm →
      (performAllCalculations ops sys geo pipes drops).capacityMarginOrDeficitScfm =
        sys.availableCompressorFlow / flowDivisor sys.gasType -
          (performAllCalculations ops sys geo pipes drops).totalDesignDemandScfm ∧
      (0 ≤ sys.availableCompressorFlow / flowDivisor sys.gasType -
            (performAllCalculations ops sys geo pipes drops).totalDesignDemandScfm →
        (performAllCalculations ops sys geo pipes drops).capacityStatus = .OK) ∧
      (sys.availableCompressorFlow / flowDivisor sys.gasType -
            (performAllCalculations ops sys geo pipes drops).totalDesignDemandScfm < 0 →
        (performAllCalculations ops sys geo pipes drops).capacityStatus = .SHORTFALL)) ∧
    ((performAllCalculations ops sys geo pipes drops).totalDesignDemandScfm ≤ 0 →
      (performAllCalculations ops sys geo pipes drops).capacityMarginOrDeficitScfm =
        sys.availableCompressorFlow / flowDivisor sys.gasType ∧
      (performAllCalculations ops sys geo pipes drops).capacityStatus = .NoDemand) := by
  simp only [performAllCalculations]
  constructor
  · intro hpos
    rw [if_pos hpos]
    refine ⟨rfl, ?_, ?_⟩
    · intro hm
      rw [if_pos hpos, if_pos hm]
    · intro hm
      rw [if_pos hpos, if_neg (not_le.mpr hm)]
  · intro hnp
    rw [if_neg (not_lt.mpr hnp), if_neg (not_lt.mpr hnp)]
    exact ⟨rfl, rfl⟩

end GasSizing

namespace GasSizing

/-- A drop declaring 450 SCFM with no sub-drops. -/
def drop450 : Drop :=
  { id := "d1", name := "D1", length := 10, reqPressure := 90, reqFlow := 450, subDrops := [] }

/-- A drop whose declared flow and single sub-drop flow are both negative, so
the aggregated design demand is negative. -/
def dropNeg : Drop :=
  { id := "d1", name := "D1", length := 10, reqPressure := 90, reqFlow := -5
    subDrops := [{ id := "s1", name := "S1", length := 5, reqPressure := 90, reqFlow := -10 }] }

/-- Counterexample to C3 as stated: with a negative aggregated design demand
(declared flow −5, sub-drop −10, so designDemand = −5 < 0) the orchestrator
reports margin = availableFlow = 500, not availableFlow − designDemand = 505. -/
theorem c3_capacity_counterexample :
    (performAllCalculations idOps sysAir geoStd [pipe12] [dropNeg]).capacityMarginOrDeficitScfm ≠
      sysAir.availableCompressorFlow / flowDivisor sysAir.gasType -
        (performAllCalculations idOps sysAir geoStd [pipe12] [dropNeg]).totalDesignDemandScfm := by
  norm_num [performAllCalculations, calculateDropsSizing, sizeDrop, flowDivisor,
    sysAir, geoStd, pipe12, dropNeg, List.filter, List.foldl]

/-- Witness for the amended C3 on the specification's capacity example:
available 500, design demand 450 gives margin 50 and status OK. -/
theorem c3_capacity_witness :
    (performAllCalculations idOps sysAir geoStd [pipe12] [drop450]).capacityMarginOrDeficitScfm =
      sysAir.availableCompressorFlow / flowDivisor sysAir.gasType -
        (performAllCalculations idOps sysAir geoStd [pipe12] [drop450]).totalDesignDemandScfm ∧
    (performAllCalculations idOps sysAir geoStd [pipe12] [drop450]).capacityStatus =
      CapacityStatus.OK := by
  have h := (c3_capacity idOps sysAir geoStd [pipe12] [drop450]).1 (by
    norm_num [performAllCalculations, calculateDropsSizing, sizeDrop, flowDivisor,
      sysAir, geoStd, pipe12, drop450, List.filter, List.foldl])
  refine ⟨h.1, h.2.1 (by
    norm_num [performAllCalculations, calculateDropsSizing, sizeDrop, flowDivisor,
      sysAir, geoStd, pipe12, drop450, List.filter, List.foldl])⟩

/-! ## Claim C7 -/

/-- C7: the tank calculator returns absent metrics exactly when tank volume
≤ 0; otherwise it computes the equivalent storage from the converted tank
volume and the usable pressure differential, reports infinite coverage
(`none`) with `isCoveringDeficit = false` when design demand ≤ 0, and
otherwise takes the reference flow to be |deficit| when the margin is
negative and the design demand when it is not, with coverage =
storage / referenceFlow (infinite when the reference flow is 0) and
`isCoveringDeficit` mirroring the sign of the margin. -/
theorem c7_tank (sys : SystemInputs) (dd m : ℚ) :
    (calculateTankMetrics sys dd m = none ↔ sys.tankVolume ≤ 0) ∧
    (0 < sys.tankVolume →
      ∃ tm : TankMetrics, calculateTankMetrics sys dd m = some tm ∧
        tm.equivalentStorageScf =
          (sys.tankVolume / GALLONS_PER_FT3) *
            ((sys.inletPressure + P_ATM_PSIA) - (sys.minOutletPressure + P_ATM_PSIA)) /
            P_ATM_PSIA ∧
        (dd ≤ 0 → tm.referenceFlowScfm = 0 ∧ tm.coverageTimeMinutes = none ∧
          tm.isCoveringDeficit = false) ∧
        (0 < dd →
          (tm.isCoveringDeficit = true ↔ m < 0) ∧
          tm.referenceFlowScfm = (if m < 0 then |m| else dd) ∧
          tm.coverageTimeMinutes =
            (if tm.referenceFlowScfm > 0
             then some (tm.equivalentStorageScf / tm.referenceFlowScfm)
             else none))) := by
  constructor
  · by_cases h : sys.tankVolume ≤ 0
    · simp [calculateTankMetrics, h]
    · simp only [calculateTankMetrics, if_neg h]
      split_ifs <;> simp [h]
  · intro h
    simp only [calculateTankMetrics, if_neg (not_le.mpr h)]
    by_cases hdd : dd ≤ 0
    · rw [if_pos hdd]
      exact ⟨_, rfl, rfl, fun _ => ⟨rfl, rfl, rfl⟩, fun hpos => absurd hpos (not_lt.mpr hdd)⟩
    · rw [if_neg hdd]
      refine ⟨_, rfl, rfl, fun hle => absurd hle hdd, fun _ => ⟨?_, rfl, rfl⟩⟩
      simp only [decide_eq_true_eq]

/-- A system fixture with a 748-gallon (100 ft³) receiver tank. -/
def sysTank : SystemInputs :=
  { inletPressure := 100, availableCompressorFlow := 500, minOutletPressure := 90
    maxTypicalOutletPressure := 95, demandSafetyFactor := 1, tankVolume := 748, gasType := .air }

/-- Witness for C7: with the tank configured, positive demand and a deficit
of 3 SCFM, the metrics are present, flag the deficit, and use |deficit| as
the reference flow. -/
theorem c7_tank_witness :
    ∃ tm : TankMetrics, calculateTankMetrics sysTank 10 (-3) = some tm ∧
      tm.isCoveringDeficit = true ∧ tm.referenceFlowScfm = 3 := by
  obtain ⟨tm, hsome, _, _, hp⟩ := (c7_tank sysTank 10 (-3)).2 (by norm_num [sysTank])
  obtain ⟨hcov, href, _⟩ := hp (by norm_num)
  exact ⟨tm, hsome, hcov.mpr (by norm_num), by rw [href]; norm_num⟩

/-! ## Claim C10 -/

/-- The severity computed from a status is `ok` exactly for `OK` status, and
`warn`/`bad` otherwise. -/
theorem row_severity_aux (st : SizingStatus) (v mv dp adp : ℚ) :
    (calculateSeverity (decide (st = SizingStatus.OK)) v mv dp adp = .ok ↔ st = .OK) ∧
    (st ≠ .OK → calculateSeverity (decide (st = SizingStatus.OK)) v mv dp adp = .warn ∨
      calculateSeverity (decide (st = SizingStatus.OK)) v mv dp adp = .bad) := by
  constructor
  · rw [calculateSeverity_ok_iff, decide_eq_true_eq]
  · intro h
    rw [decide_eq_false h]
    exact calculateSeverity_false v mv dp adp

/-- C10: in every row of every comparison table the engine emits (drop,
sub-drop and header rows alike), the severity field is `ok` if and only if
the row's status is `OK`; failing rows always carry severity `warn` or
`bad`. -/
theorem c10_severity (ops : FloatOps) :
    (∀ (flow L up ref maxV tF rough : ℚ) (pipes : List PipeSize) (gas : GasType)
        (r : SizingResultRow),
      r ∈ (sizePipe ops flow L up ref maxV tF rough pipes gas).table →
        ((r.severity = .ok ↔ r.status = .OK) ∧
         (r.status ≠ .OK → r.severity = .warn ∨ r.severity = .bad))) ∧
    (∀ (d : ℚ) (sys : SystemInputs) (geo : HeaderGeometry) (pipes : List PipeSize)
        (hr : HeaderResults),
      calculateHeaderSizing ops d sys geo pipes = some hr →
        ∀ r ∈ hr.comparisonTable,
          ((r.severity = .ok ↔ r.status = .OK) ∧
           (r.status ≠ .OK → r.severity = .warn ∨ r.severity = .bad))) := by
  constructor
  · intro flow L up ref maxV tF rough pipes gas r hrmem
    by_cases hf : flow ≤ 0
    · simp only [sizePipe, if_pos hf] at hrmem
      exact absurd hrmem (List.not_mem_nil r)
    · simp only [sizePipe, if_neg hf] at hrmem
      obtain ⟨p, _, rfl⟩ := List.mem_map.mp hrmem
      exact row_severity_aux
        (sizePipeRow ops flow L up ref maxV tF rough gas p).status
        (sizePipeRow ops flow L up ref maxV tF rough gas p).velocity maxV
        (sizePipeRow ops flow L up ref maxV tF rough gas p).deltaP
        (max (1/1000000) (up - ref))
  · intro d sys geo pipes hr hsome r hrmem
    by_cases hg : pipes.filter (fun p => p.selected) = [] ∨ d ≤ 0
    · simp only [calculateHeaderSizing, if_pos hg] at hsome
      exact absurd hsome (by simp)
    · simp only [calculateHeaderSizing, if_neg hg, Option.some.injEq] at hsome
      rw [← hsome] at hrmem
      obtain ⟨p, _, rfl⟩ := List.mem_map.mp hrmem
      exact row_severity_aux
        (headerRow ops d sys geo p).status
        (headerRow ops d sys geo p).velocity geo.maxLineVelocity
        (headerRow ops d sys geo p).deltaP
        (sys.inletPressure - sys.minOutletPressure)

/-- Witness for C10: the first row of a concrete comparison table satisfies
the severity/status correspondence. -/
theorem c10_severity_witness :
    ∃ r : SizingResultRow,
      (sizePipe idOps 1 10 100 90 50 70 (15/100000) [pipe12] GasType.air).table.head? = some r ∧
      (r.severity = Severity.ok ↔ r.status = SizingStatus.OK) := by
  have hne : (sizePipe idOps 1 10 100 90 50 70 (15/100000) [pipe12] GasType.air).table ≠ [] := by
    norm_num [sizePipe, pipe12, List.filter]
  exact ⟨_, List.head?_eq_head hne,
    ((c10_severity idOps).1 1 10 100 90 50 70 (15/100000) [pipe12] GasType.air _
      (List.head_mem hne)).1⟩

end GasSizing

namespace GasSizing

/-! ## Claim C5 -/

/-- Under the fuel-gas branch, a negative squared outlet pressure clamps the
outlet pressure to zero absolute (gauge `−P_atm`), so the pressure drop is
the full upstream-gauge-plus-atmosphere differential. -/
theorem fuelGasCandidate_clamped (ops : FloatOps) (flow L up pin d A : ℚ)
    (hf : 0 < flow) (hneg : fuelP2sq ops flow L pin d < 0) :
    (fuelGasCandidate ops flow L up pin d A).p_out = -P_ATM_PSIA ∧
    (fuelGasCandidate ops flow L up pin d A).deltaP = up + P_ATM_PSIA := by
  have h60 : flow * 60 > 0 := by positivity
  simp only [fuelGasCandidate, if_pos h60, if_pos hneg]
  exact ⟨by trivial, by ring⟩

/-- The drop/sub-drop status combinator never yields `OK` when the pressure
criterion fails. -/
theorem statusIf_ne_ok (vOk pOk : Prop) [Decidable vOk] [Decidable pOk] (hp : ¬ pOk) :
    (if ¬vOk ∧ ¬pOk then SizingStatus.HighVelocityExcessiveDP
     else if ¬vOk then SizingStatus.HighVelocity
     else if ¬pOk then SizingStatus.ExcessiveDP else SizingStatus.OK) ≠ SizingStatus.OK := by
  split_ifs with h1 h2 h3 <;> simp_all

/-- The header status combinator never yields `OK` when the outlet-pressure
criterion fails. -/
theorem headerStatusIf_ne_ok (pOk vOk : Prop) [Decidable pOk] [Decidable vOk] (hp : ¬ pOk) :
    (if ¬pOk ∧ ¬vOk then SizingStatus.HighVelocityExcessiveDP
     else if ¬vOk then SizingStatus.HighVelocity
     else if ¬pOk then SizingStatus.InsufficientOutletPressure else SizingStatus.OK) ≠
      SizingStatus.OK := by
  split_ifs with h1 h2 h3 <;> simp_all

/-- C5: for every fuel-gas segment evaluation in which the inverted flow
equation yields a negative squared outlet pressure, the outlet pressure is
clamped to zero absolute pressure (gauge `−P_atm`), producing a well-defined,
maximal pressure drop and a failing (non-`OK`) status for that candidate —
for drop/sub-drop rows (given physically sensible non-negative gauge
pressures) and for header rows (given a non-negative minimum outlet
pressure) alike. -/
theorem c5_fuel_clamp :
    (∀ (ops : FloatOps) (flow L up pin d A : ℚ), 0 < flow →
      fuelP2sq ops flow L pin d < 0 →
      (fuelGasCandidate ops flow L up pin d A).p_out = -P_ATM_PSIA) ∧
    (∀ (ops : FloatOps) (flow L up ref maxV tF rough : ℚ) (pipe : PipeSize),
      0 < flow → 0 ≤ up → 0 ≤ ref →
      fuelP2sq ops flow L (up + P_ATM_PSIA) pipe.id_in < 0 →
      (sizePipeRow ops flow L up ref maxV tF rough .naturalGas pipe).deltaP = up + P_ATM_PSIA ∧
      (sizePipeRow ops flow L up ref maxV tF rough .naturalGas pipe).status ≠ .OK) ∧
    (∀ (ops : FloatOps) (d : ℚ) (sys : SystemInputs) (geo : HeaderGeometry) (pipe : PipeSize),
      sys.gasType = .naturalGas → 0 < d → 0 ≤ sys.minOutletPressure →
      fuelP2sq ops d geo.headerLength (sys.inletPressure + P_ATM_PSIA) pipe.id_in < 0 →
      (headerRow ops d sys geo pipe).outletPressure = some (-P_ATM_PSIA) ∧
      (headerRow ops d sys geo pipe).deltaP = sys.inletPressure + P_ATM_PSIA ∧
      (headerRow ops d sys geo pipe).status ≠ .OK) := by
  refine ⟨?_, ?_, ?_⟩
  · intro ops flow L up pin d A hf hneg
    exact (fuelGasCandidate_clamped ops flow L up pin d A hf hneg).1
  · intro ops flow L up ref maxV tF rough pipe hf hup href hneg
    have hce := fuelGasCandidate_clamped ops flow L up (up + P_ATM_PSIA) pipe.id_in
      ((mathPI * (pipe.id_in / 12) * (pipe.id_in / 12)) / 4) hf hneg
    have hdp : (sizePipeRow ops flow L up ref maxV tF rough .naturalGas pipe).deltaP =
        up + P_ATM_PSIA := hce.2
    refine ⟨hdp, ?_⟩
    have hpo : ¬ ((fuelGasCandidate ops flow L up (up + P_ATM_PSIA) pipe.id_in
        ((mathPI * (pipe.id_in / 12) * (pipe.id_in / 12)) / 4)).deltaP ≤
          max (1/1000000) (up - ref)) := by
      rw [hce.2]
      apply not_le.mpr
      apply max_lt
      · rw [P_ATM_PSIA]; linarith
      · rw [P_ATM_PSIA]; linarith
    exact statusIf_ne_ok
      ((fuelGasCandidate ops flow L up (up + P_ATM_PSIA) pipe.id_in
        ((mathPI * (pipe.id_in / 12) * (pipe.id_in / 12)) / 4)).v ≤ maxV)
      ((fuelGasCandidate ops flow L up (up + P_ATM_PSIA) pipe.id_in
        ((mathPI * (pipe.id_in / 12) * (pipe.id_in / 12)) / 4)).deltaP ≤
          max (1/1000000) (up - ref)) hpo
  · intro ops d sys geo pipe hg hd hmo hneg
    obtain ⟨ip, af, mo, mt, sf, tv, g⟩ := sys
    simp only at hg hmo hneg
    subst hg
    have hce := fuelGasCandidate_clamped ops d geo.headerLength ip (ip + P_ATM_PSIA) pipe.id_in
      ((mathPI * (pipe.id_in / 12) * (pipe.id_in / 12)) / 4) hd hneg
    refine ⟨?_, hce.2, ?_⟩
    · show some (fuelGasCandidate ops d geo.headerLength ip (ip + P_ATM_PSIA) pipe.id_in
        ((mathPI * (pipe.id_in / 12) * (pipe.id_in / 12)) / 4)).p_out = _
      rw [hce.1]
    · have hpo : ¬ ((fuelGasCandidate ops d geo.headerLength ip (ip + P_ATM_PSIA) pipe.id_in
          ((mathPI * (pipe.id_in / 12) * (pipe.id_in / 12)) / 4)).p_out ≥ mo) := by
        rw [hce.1]
        apply not_le.mpr
        rw [P_ATM_PSIA]
        linarith
      exact headerStatusIf_ne_ok
        ((fuelGasCandidate ops d geo.headerLength ip (ip + P_ATM_PSIA) pipe.id_in
          ((mathPI * (pipe.id_in / 12) * (pipe.id_in / 12)) / 4)).p_out ≥ mo)
        ((fuelGasCandidate ops d geo.headerLength ip (ip + P_ATM_PSIA) pipe.id_in
          ((mathPI * (pipe.id_in / 12) * (pipe.id_in / 12)) / 4)).v ≤ geo.maxLineVelocity) hpo

/-- A one-inch fuel-gas candidate pipe. -/
def pipeF : PipeSize := { nominal := "F1", id_in := 1, selected := true }

/-- A natural-gas system fixture at zero gauge inlet pressure. -/
def sysFuel : SystemInputs :=
  { inletPressure := 0, availableCompressorFlow := 0, minOutletPressure := 0
    maxTypicalOutletPressure := 0, demandSafetyFactor := 1, tankVolume := 0
    gasType := .naturalGas }

/-- A long fuel-gas header geometry fixture. -/
def geoFuel : HeaderGeometry :=
  { headerLength := 1000, maxLineVelocity := 1000000, pipeRoughness := 15/100000
    airTemperature := 70 }

/-- Witness for C5: a concrete fuel-gas evaluation whose squared outlet
pressure is negative, clamped as claimed with a failing status. -/
theorem c5_fuel_clamp_witness :
    (sizePipeRow idOps (2207/60) 1000 0 0 1000000 70 (15/100000)
      GasType.naturalGas pipeF).deltaP = 0 + P_ATM_PSIA ∧
    (sizePipeRow idOps (2207/60) 1000 0 0 1000000 70 (15/100000)
      GasType.naturalGas pipeF).status ≠ SizingStatus.OK ∧
    (headerRow idOps (2207/60) sysFuel geoFuel pipeF).outletPressure = some (-P_ATM_PSIA) := by
  obtain ⟨h1, h2⟩ := c5_fuel_clamp.2.1 idOps (2207/60) 1000 0 0 1000000 70 (15/100000) pipeF
    (by norm_num) le_rfl le_rfl
    (by norm_num [fuelP2sq, idOps, P_ATM_PSIA, pipeF])
  obtain ⟨h3, _, _⟩ := c5_fuel_clamp.2.2 idOps (2207/60) sysFuel geoFuel pipeF rfl
    (by norm_num) le_rfl
    (by norm_num [fuelP2sq, idOps, P_ATM_PSIA, pipeF, sysFuel, geoFuel])
  exact ⟨h1, h2, h3⟩

/-! ## Claim C8 (amended) -/

/-- C8 (amended): for every sub-drop, the selected sizing options are the
severity-`ok` rows of its comparison table in candidate order truncated to at
most 3, or, when no row has severity `ok`, the first 3 rows of the full
table; the option set is non-empty whenever the comparison table is
non-empty (an inactive sub-drop has an empty table and hence an empty option
set). -/
theorem c8_subdrop_options (ops : FloatOps) (system : SystemInputs) (geometry : HeaderGeometry)
    (selectedPipes : List PipeSize) (sd : SubDrop) (tbl : List SizingResultRow)
    (htbl : tbl = (sizePipe ops ((sd.reqFlow * system.demandSafetyFactor) /
        flowDivisor system.gasType) sd.length system.inletPressure sd.reqPressure
        geometry.maxLineVelocity geometry.airTemperature geometry.pipeRoughness
        selectedPipes system.gasType).table) :
    (sizeSubDrop ops system geometry selectedPipes sd).sizingOptions =
      (if tbl.filter (fun r => decide (r.severity = Severity.ok)) ≠ []
       then (tbl.filter (fun r => decide (r.severity = Severity.ok))).take 3
       else tbl.take 3) ∧
    (sizeSubDrop ops system geometry selectedPipes sd).sizingOptions.length ≤ 3 ∧
    (tbl ≠ [] → (sizeSubDrop ops system geometry selectedPipes sd).sizingOptions ≠ []) := by
  have hopt : (sizeSubDrop ops system geometry selectedPipes sd).sizingOptions =
      (if (tbl.filter (fun r => decide (r.severity = Severity.ok))).length > 0
       then (tbl.filter (fun r => decide (r.severity = Severity.ok))).take 3
       else tbl.take 3) := by
    rw [htbl]; rfl
  by_cases hok : tbl.filter (fun r => decide (r.severity = Severity.ok)) = []
  · rw [hopt, hok]
    simp only [List.length_nil, gt_iff_lt, lt_self_iff_false, if_false, ne_eq,
      not_true_eq_false, if_false]
    refine ⟨by trivial, ?_, fun hne => take_three_ne_nil hne⟩
    simp [List.length_take]
  · rw [hopt, if_pos (List.length_pos.mpr hok), if_pos hok]
    refine ⟨by trivial, ?_, fun _ => take_three_ne_nil hok⟩
    simp [List.length_take]

/-- A drop whose single sub-drop declares zero flow (inactive). -/
def dropZero : Drop :=
  { id := "d1", name := "D1", length := 10, reqPressure := 90, reqFlow := 0
    subDrops := [{ id := "s1", name := "S1", length := 5, reqPressure := 90, reqFlow := 0 }] }

/-- Counterexample to C8 as stated: an inactive sub-drop (declared flow 0)
yields an empty comparison table and hence an empty option set — the option
set is not non-empty in every case. -/
theorem c8_subdrop_options_counterexample :
    ((calculateDropsSizing idOps [dropZero] sysAir geoStd [pipe12]).map
      (fun dr => dr.subDropResults.map (fun s => s.sizingOptions))) = [[[]]] := by
  norm_num [calculateDropsSizing, sizeDrop, sizeSubDrop, sizePipe, flowDivisor,
    sysAir, geoStd, pipe12, dropZero, List.filter, List.foldl]

/-- An active 50-SCFM sub-drop. -/
def sdW : SubDrop := { id := "s1", name := "S1", length := 10, reqPressure := 90, reqFlow := 50 }

/-- Witness for the amended C8 on an active sub-drop with a nonempty table. -/
theorem c8_subdrop_options_witness :
    (sizeSubDrop idOps sysAir geoStd [pipe12] sdW).sizingOptions.length ≤ 3 ∧
    (sizeSubDrop idOps sysAir geoStd [pipe12] sdW).sizingOptions ≠ [] := by
  obtain ⟨_, h2, h3⟩ := c8_subdrop_options idOps sysAir geoStd [pipe12] sdW _ rfl
  exact ⟨h2, h3 (by norm_num [sizePipe, sysAir, geoStd, pipe12, sdW, flowDivisor, List.filter])⟩

end GasSizing

namespace GasSizing

/-! ## Claim C1 (amended) -/

/-- A system fixture whose minimum outlet pressure is low enough never to
fail the header pressure criterion. -/
def sysHV : SystemInputs :=
  { inletPressure := 100, availableCompressorFlow := 500, minOutletPressure := -1000
    maxTypicalOutletPressure := 95, demandSafetyFactor := 1, tankVolume := 0, gasType := .air }

/-- A geometry with a zero velocity ceiling, so every candidate fails on
velocity. -/
def geoHV : HeaderGeometry :=
  { headerLength := 100, maxLineVelocity := 0, pipeRoughness := 15/100000, airTemperature := 70 }

/-- Counterexample to C1 as stated: a header evaluation with a non-empty
comparison table and no `OK` row reports the sentinel recommended label, but
its representative velocity is `0`, not the first evaluated row's (nonzero)
velocity — the `?? 0` fallback, not the first row, supplies the header's
representative values. -/
theorem c1_recommended_counterexample :
    ((calculateHeaderSizing idOps 1 sysHV geoHV [pipe12]).map
        (fun h => (h.recommendedSize, h.velocity,
          h.comparisonTable.map (fun r => r.status)))) =
      some ("No feasible size", 0, [SizingStatus.HighVelocity]) ∧
    ((calculateHeaderSizing idOps 1 sysHV geoHV [pipe12]).map
        (fun h => h.comparisonTable.map (fun r => r.velocity))) ≠ some [0] := by
  constructor
  · norm_num [calculateHeaderSizing, headerRow, airCandidate, airStep,
      swameeJainFrictionFactor, calculateSeverity, GAS_PROPERTIES, toAbsRankine,
      P_ATM_PSIA, G_C_LBM_FT_LBF_S2, mathPI, idOps, sysHV, geoHV, pipe12, List.filter]
    simp
  · norm_num [calculateHeaderSizing, headerRow, airCandidate, airStep,
      swameeJainFrictionFactor, calculateSeverity, GAS_PROPERTIES, toAbsRankine,
      P_ATM_PSIA, G_C_LBM_FT_LBF_S2, mathPI, idOps, sysHV, geoHV, pipe12, List.filter]

/-- C1 (amended): within one sizing result with a non-empty comparison table
(and no candidate labelled with the sentinel), the recommended label is the
nominal of the first row in candidate order whose status is `OK`, and the
sentinel `"No feasible size"` when no row is `OK`.  When no row is `OK`, the
representative velocity, pressure drop and status of a drop/sub-drop result
are those of the first evaluated row, while the header result falls back to
`0` for its representative velocity and outlet pressure. -/
theorem c1_recommended :
    (∀ (ops : FloatOps) (flow L up ref maxV tF rough : ℚ) (pipes : List PipeSize)
        (gas : GasType) (out : SizePipeResult),
      out = sizePipe ops flow L up ref maxV tF rough pipes gas →
      out.table ≠ [] →
      "No feasible size" ∉ out.table.map (fun r => r.nominal) →
      out.recommended =
        ((out.table.find? (fun r => decide (r.status = SizingStatus.OK))).map
          (fun r => r.nominal)).getD "No feasible size" ∧
      (out.table.find? (fun r => decide (r.status = SizingStatus.OK)) = none →
        ∀ h, out.table.head? = some h →
          out.velocity = h.velocity ∧ out.deltaP = h.deltaP ∧ out.status = h.status)) ∧
    (∀ (ops : FloatOps) (d : ℚ) (sys : SystemInputs) (geo : HeaderGeometry)
        (pipes : List PipeSize) (hr : HeaderResults),
      calculateHeaderSizing ops d sys geo pipes = some hr →
      "No feasible size" ∉ hr.comparisonTable.map (fun r => r.nominal) →
      hr.recommendedSize =
        ((hr.comparisonTable.find? (fun r => decide (r.status = SizingStatus.OK))).map
          (fun r => r.nominal)).getD "No feasible size" ∧
      (hr.comparisonTable.find? (fun r => decide (r.status = SizingStatus.OK)) = none →
        hr.velocity = 0 ∧ hr.outletPressure = 0)) := by
  constructor
  · intro ops flow L up ref maxV tF rough pipes gas out hout hne hsent
    by_cases hf : flow ≤ 0
    · exfalso
      apply hne
      rw [hout]
      simp [sizePipe, if_pos hf]
    · rw [hout] at hne hsent ⊢
      simp only [sizePipe, if_neg hf] at hne hsent ⊢
      simp only [List.filter_head?]
      cases hfind : ((pipes.filter (fun p => p.selected)).map
          (sizePipeRow ops flow L up ref maxV tF rough gas)).find?
            (fun r => decide (r.status = SizingStatus.OK)) with
      | some r =>
        exact ⟨by simp, fun hnone => absurd hnone (by simp)⟩
      | none =>
        have hsf : ((pipes.filter (fun p => p.selected)).map
            (sizePipeRow ops flow L up ref maxV tF rough gas)).find?
              (fun r => decide (r.nominal = "No feasible size")) = none := by
          apply List.find?_eq_none.mpr
          intro x hx
          simp only [decide_eq_true_eq]
          intro hxn
          exact hsent (List.mem_map.mpr ⟨x, hx, hxn⟩)
        refine ⟨by simp, fun _ h hh => ?_⟩
        simp [hsf, hh, Option.orElse]
  · intro ops d sys geo pipes hr hsome hsent
    by_cases hg : pipes.filter (fun p => p.selected) = [] ∨ d ≤ 0
    · simp only [calculateHeaderSizing, if_pos hg] at hsome
      exact absurd hsome (by simp)
    · simp only [calculateHeaderSizing, if_neg hg, Option.some.injEq] at hsome
      rw [← hsome] at hsent ⊢
      simp only [List.filter_head?] at hsent ⊢
      cases hfind : ((pipes.filter (fun p => p.selected)).map
          (headerRow ops d sys geo)).find? (fun r => decide (r.status = SizingStatus.OK)) with
      | some r =>
        exact ⟨by simp, fun hnone => absurd hnone (by simp)⟩
      | none =>
        have hsf : ((pipes.filter (fun p => p.selected)).map
            (headerRow ops d sys geo)).find?
              (fun r => decide (r.nominal = "No feasible size")) = none := by
          apply List.find?_eq_none.mpr
          intro x hx
          simp only [decide_eq_true_eq]
          intro hxn
          exact hsent (List.mem_map.mpr ⟨x, hx, hxn⟩)
        refine ⟨by simp, fun _ => ?_⟩
        simp [hsf]

/-- Witness for the amended C1: a concrete no-`OK` drop evaluation whose
representative values are the first row's, and a concrete no-`OK` header
evaluation whose representative velocity and outlet pressure fall back
to 0. -/
theorem c1_recommended_witness :
    ((sizePipe idOps 1 100 100 90 0 70 (15/100000) [pipe12] GasType.air).recommended =
        "No feasible size" ∧
      (sizePipe idOps 1 100 100 90 0 70 (15/100000) [pipe12] GasType.air).velocity =
        (sizePipeRow idOps 1 100 100 90 0 70 (15/100000) GasType.air pipe12).velocity) ∧
    ((calculateHeaderSizing idOps 1 sysHV geoHV [pipe12]).map
        (fun h => (h.recommendedSize, h.velocity, h.outletPressure))) =
      some ("No feasible size", 0, 0) := by
  constructor
  · have hne : (sizePipe idOps 1 100 100 90 0 70 (15/100000) [pipe12] GasType.air).table ≠ [] := by
      norm_num [sizePipe, pipe12, List.filter]
    have hsent : "No feasible size" ∉
        (sizePipe idOps 1 100 100 90 0 70 (15/100000) [pipe12] GasType.air).table.map
          (fun r => r.nominal) := by
      norm_num [sizePipe, sizePipeRow, pipe12, List.filter]
      simp
    have hfind : (sizePipe idOps 1 100 100 90 0 70 (15/100000) [pipe12]
        GasType.air).table.find? (fun r => decide (r.status = SizingStatus.OK)) = none := by
      norm_num [sizePipe, sizePipeRow, airCandidate, airStep, swameeJainFrictionFactor,
        calculateSeverity, GAS_PROPERTIES, toAbsRankine, P_ATM_PSIA, G_C_LBM_FT_LBF_S2,
        mathPI, idOps, pipe12, List.filter, List.find?]
      simp
    have hh : (sizePipe idOps 1 100 100 90 0 70 (15/100000) [pipe12] GasType.air).table.head? =
        some (sizePipeRow idOps 1 100 100 90 0 70 (15/100000) GasType.air pipe12) := by
      norm_num [sizePipe, pipe12, List.filter]
    have hA := c1_recommended.1 idOps 1 100 100 90 0 70 (15/100000) [pipe12] GasType.air _
      rfl hne hsent
    refine ⟨hA.1.trans (by rw [hfind]; rfl), (hA.2 hfind _ hh).1⟩
  · have hiss : (calculateHeaderSizing idOps 1 sysHV geoHV [pipe12]).isSome = true := by
      norm_num [calculateHeaderSizing, List.filter, sysHV, geoHV, pipe12]
    have hsome := Option.some_get hiss
    have hsent : "No feasible size" ∉
        ((calculateHeaderSizing idOps 1 sysHV geoHV [pipe12]).get
          hiss).comparisonTable.map (fun r => r.nominal) := by
      norm_num [calculateHeaderSizing, headerRow, sysHV, geoHV, pipe12, List.filter]
      simp
    have hfind : ((calculateHeaderSizing idOps 1 sysHV geoHV [pipe12]).get
        hiss).comparisonTable.find? (fun r => decide (r.status = SizingStatus.OK)) = none := by
      norm_num [calculateHeaderSizing, headerRow, airCandidate, airStep,
        swameeJainFrictionFactor, calculateSeverity, GAS_PROPERTIES, toAbsRankine,
        P_ATM_PSIA, G_C_LBM_FT_LBF_S2, mathPI, idOps, sysHV, geoHV, pipe12,
        List.filter, List.find?]
      simp
    have hB := c1_recommended.2 idOps 1 sysHV geoHV [pipe12] _ hsome.symm hsent
    rw [← hsome, Option.map_some']
    rw [hB.1, hfind, (hB.2 hfind).1, (hB.2 hfind).2]
    rfl

end GasSizing

namespace GasSizing

/-! ## Claim C4 (amended) -/

/-- Counterexample to C4 as stated: for a compressed-air header input the
per-candidate velocity the header reports differs from the one the generic
evaluator computes with the same parameters and the required downstream
reference (`minOutletPressure`) — the header seeds its 5-pass iteration with
the inlet pressure instead. -/
theorem c4_header_refinement_counterexample :
    ((calculateHeaderSizing constLogOps 50000 sysAir geoStd [pipe12]).map
        (fun h => h.comparisonTable.map (fun r => r.velocity))) ≠
      some ((sizePipe constLogOps 50000 geoStd.headerLength sysAir.inletPressure
        sysAir.minOutletPressure geoStd.maxLineVelocity geoStd.airTemperature
        geoStd.pipeRoughness [pipe12] sysAir.gasType).table.map (fun r => r.velocity)) := by
  norm_num [calculateHeaderSizing, headerRow, sizePipe, sizePipeRow, airCandidate, airStep,
    swameeJainFrictionFactor, calculateSeverity, GAS_PROPERTIES, toAbsRankine,
    P_ATM_PSIA, G_C_LBM_FT_LBF_S2, mathPI, constLogOps, sysAir, geoStd, pipe12, List.filter]

/-- Each header row carries the same velocity and pressure drop as the
generic evaluator's row for the same candidate when the evaluator's
downstream reference (hence the air branch's iteration seed) is the inlet
pressure. -/
theorem headerRow_eq_sizePipeRow_inlet (ops : FloatOps) (d : ℚ) (sys : SystemInputs)
    (geo : HeaderGeometry) (p : PipeSize) :
    (headerRow ops d sys geo p).velocity =
      (sizePipeRow ops d geo.headerLength sys.inletPressure sys.inletPressure
        geo.maxLineVelocity geo.airTemperature geo.pipeRoughness sys.gasType p).velocity ∧
    (headerRow ops d sys geo p).deltaP =
      (sizePipeRow ops d geo.headerLength sys.inletPressure sys.inletPressure
        geo.maxLineVelocity geo.airTemperature geo.pipeRoughness sys.gasType p).deltaP := by
  obtain ⟨ip, af, mo, mt, sf, tv, g⟩ := sys
  cases g <;> exact ⟨rfl, rfl⟩

/-- C4 (amended): header sizing applies the generic segment evaluator per
candidate, but with its 5-pass air iteration seeded by the inlet pressure —
equivalently, with downstream reference set to the inlet pressure — rather
than by the required downstream reference: with that seeding, the header's
per-candidate velocities and pressure drops coincide exactly with the
generic evaluator's. -/
theorem c4_header_refinement (ops : FloatOps) (d : ℚ) (sys : SystemInputs)
    (geo : HeaderGeometry) (pipes : List PipeSize)
    (h1 : pipes.filter (fun p => p.selected) ≠ []) (h2 : 0 < d) :
    (calculateHeaderSizing ops d sys geo pipes).map
        (fun hr => hr.comparisonTable.map (fun r => (r.velocity, r.deltaP))) =
      some ((sizePipe ops d geo.headerLength sys.inletPressure sys.inletPressure
        geo.maxLineVelocity geo.airTemperature geo.pipeRoughness pipes
        sys.gasType).table.map (fun r => (r.velocity, r.deltaP))) := by
  have hg : ¬ (pipes.filter (fun p => p.selected) = [] ∨ d ≤ 0) := by
    push_neg
    exact ⟨h1, h2⟩
  simp only [calculateHeaderSizing, if_neg hg, Option.map_some', sizePipe,
    if_neg (not_le.mpr h2), List.map_map]
  refine congrArg some (List.map_congr_left ?_)
  intro p _
  have h := headerRow_eq_sizePipeRow_inlet ops d sys geo p
  simp only [Function.comp_apply, h.1, h.2]

/-- Witness for the amended C4 at a concrete air input. -/
theorem c4_header_refinement_witness :
    (calculateHeaderSizing idOps 1 sysAir geoStd [pipe12]).map
        (fun hr => hr.comparisonTable.map (fun r => (r.velocity, r.deltaP))) =
      some ((sizePipe idOps 1 geoStd.headerLength sysAir.inletPressure sysAir.inletPressure
        geoStd.maxLineVelocity geoStd.airTemperature geoStd.pipeRoughness [pipe12]
        sysAir.gasType).table.map (fun r => (r.velocity, r.deltaP))) :=
  c4_header_refinement idOps 1 sysAir geoStd [pipe12]
    (by norm_num [pipe12, List.filter]) (by norm_num)

end GasSizing

namespace GasSizing

/-! ## Claim C9 (amended) -/

/-- A thin (0.012-inch internal diameter) candidate pipe used to exhibit the
air-branch monotonicity failure in the laminar regime. -/
def pipe9 : PipeSize := { nominal := "P1", id_in := 12/1000, selected := true }

/-- Counterexample to C9 as stated: on a fixed compressed-air segment and a
fixed candidate, increasing the flow from 1/5000 to 1/500 SCFM *decreases*
the computed velocity: the larger flow's pressure drop drives the 5-pass
iteration's mean pressure negative, and the reported velocity with it.  Every
pass of both evaluations is laminar, so the evaluation never consults the
abstracted float primitives. -/
theorem c9_monotonicity_counterexample :
    (0:ℚ) < 1/5000 ∧ (1/5000 : ℚ) ≤ 1/500 ∧
    (sizePipeRow idOps (1/500) 10 (3/10) 0 1000000 70 (15/100000) GasType.air pipe9).velocity <
      (sizePipeRow idOps (1/5000) 10 (3/10) 0 1000000 70 (15/100000) GasType.air pipe9).velocity := by
  refine ⟨by norm_num, by norm_num, ?_⟩
  norm_num [sizePipeRow, airCandidate, airStep, swameeJainFrictionFactor, calculateSeverity,
    GAS_PROPERTIES, toAbsRankine, P_ATM_PSIA, G_C_LBM_FT_LBF_S2, mathPI, idOps, pipe9]

/-- Monotonicity of the fuel-gas closed form in the flow: with monotone and
nonnegative interpretations of the power and square-root primitives, a
positive power of the diameter, nonnegative length and positive inlet
absolute pressure, both the computed velocity and the computed pressure drop
are nondecreasing in the flow. -/
theorem fuelGasCandidate_mono (ops : FloatOps) (L up pin d A q1 q2 : ℚ)
    (Hpow : ∀ x y : ℚ, x ≤ y → ops.powf x (1 / (522/1000)) ≤ ops.powf y (1 / (522/1000)))
    (Hsm : ∀ x y : ℚ, 0 ≤ x → x ≤ y → ops.sqrt x ≤ ops.sqrt y)
    (Hsn : ∀ x : ℚ, 0 ≤ x → 0 ≤ ops.sqrt x)
    (HD : 0 < ops.powf d (2582/1000))
    (HL : 0 ≤ L) (Hpin : 0 < pin) (HA : 0 < A)
    (Hq1 : 0 < q1) (Hle : q1 ≤ q2) :
    (fuelGasCandidate ops q1 L up pin d A).v ≤ (fuelGasCandidate ops q2 L up pin d A).v ∧
    (fuelGasCandidate ops q1 L up pin d A).deltaP ≤
      (fuelGasCandidate ops q2 L up pin d A).deltaP := by
  have Hq2 : 0 < q2 := lt_of_lt_of_le Hq1 Hle
  have hp2 : fuelP2sq ops q2 L pin d ≤ fuelP2sq ops q1 L pin d := by
    simp only [fuelP2sq]
    have hden : (0:ℚ) < 2207 * ops.powf d (2582/1000) := by positivity
    have hterm : q1 * 60 / (2207 * ops.powf d (2582/1000)) ≤
        q2 * 60 / (2207 * ops.powf d (2582/1000)) :=
      (div_le_div_iff_of_pos_right hden).mpr (by linarith)
    have hpow := Hpow _ _ hterm
    have := mul_le_mul_of_nonneg_left hpow HL
    linarith
  have hpo : ∀ q : ℚ, 0 < q → (fuelGasCandidate ops q L up pin d A).p_out =
      (if fuelP2sq ops q L pin d < 0 then -P_ATM_PSIA
       else ops.sqrt (fuelP2sq ops q L pin d) - P_ATM_PSIA) := by
    intro q hq
    simp only [fuelGasCandidate, if_pos (show q * 60 > 0 by positivity)]
  have hlb : ∀ q : ℚ, 0 < q → -P_ATM_PSIA ≤ (fuelGasCandidate ops q L up pin d A).p_out := by
    intro q hq
    rw [hpo q hq]
    split_ifs with h
    · exact le_refl _
    · have := Hsn _ (not_lt.mp h)
      linarith
  have hanti : (fuelGasCandidate ops q2 L up pin d A).p_out ≤
      (fuelGasCandidate ops q1 L up pin d A).p_out := by
    rw [hpo q1 Hq1, hpo q2 Hq2]
    split_ifs with ha hb
    · exact le_refl _
    · have := Hsn _ (not_lt.mp hb)
      linarith
    · linarith
    · have := Hsm _ _ (not_lt.mp ha) hp2
      linarith
  have hdpe : ∀ q : ℚ, (fuelGasCandidate ops q L up pin d A).deltaP =
      up - (fuelGasCandidate ops q L up pin d A).p_out := fun q => rfl
  have hdp : (fuelGasCandidate ops q1 L up pin d A).deltaP ≤
      (fuelGasCandidate ops q2 L up pin d A).deltaP := by
    rw [hdpe q1, hdpe q2]
    linarith
  have hve : ∀ q : ℚ, (fuelGasCandidate ops q L up pin d A).v =
      q * (P_ATM_PSIA /
        ((pin + ((fuelGasCandidate ops q L up pin d A).p_out + P_ATM_PSIA)) / 2)) / 60 / A :=
    fun q => rfl
  have hb1 := hlb q1 Hq1
  have hb2 := hlb q2 Hq2
  have hpa1 : 0 < (pin + ((fuelGasCandidate ops q1 L up pin d A).p_out + P_ATM_PSIA)) / 2 := by
    linarith
  have hpa2 : 0 < (pin + ((fuelGasCandidate ops q2 L up pin d A).p_out + P_ATM_PSIA)) / 2 := by
    linarith
  have hpale : (pin + ((fuelGasCandidate ops q2 L up pin d A).p_out + P_ATM_PSIA)) / 2 ≤
      (pin + ((fuelGasCandidate ops q1 L up pin d A).p_out + P_ATM_PSIA)) / 2 := by
    linarith
  have hfrac : P_ATM_PSIA /
        ((pin + ((fuelGasCandidate ops q1 L up pin d A).p_out + P_ATM_PSIA)) / 2) ≤
      P_ATM_PSIA /
        ((pin + ((fuelGasCandidate ops q2 L up pin d A).p_out + P_ATM_PSIA)) / 2) :=
    div_le_div_of_nonneg_left (by norm_num [P_ATM_PSIA]) hpa2 hpale
  have hmul : q1 * (P_ATM_PSIA /
        ((pin + ((fuelGasCandidate ops q1 L up pin d A).p_out + P_ATM_PSIA)) / 2)) ≤
      q2 * (P_ATM_PSIA /
        ((pin + ((fuelGasCandidate ops q2 L up pin d A).p_out + P_ATM_PSIA)) / 2)) :=
    mul_le_mul Hle hfrac
      (le_of_lt (div_pos (by norm_num [P_ATM_PSIA]) hpa1)) (le_of_lt Hq2)
  refine ⟨?_, hdp⟩
  rw [hve q1, hve q2]
  exact (div_le_div_iff_of_pos_right HA).mpr
    ((div_le_div_iff_of_pos_right (by norm_num : (0:ℚ) < 60)).mpr hmul)

/-- C9 (amended): for a fixed fuel-gas segment and a fixed candidate
diameter, increasing the flow never decreases the computed velocity nor the
computed pressure drop (under monotone, nonnegative interpretations of the
power and square-root primitives and physically sensible positivity of the
diameter power and inlet absolute pressure).  For the compressed-air
iterative branch the property fails — see the counterexample. -/
theorem c9_monotonicity (ops : FloatOps) (L up ref maxV tF rough : ℚ) (pipe : PipeSize)
    (q1 q2 : ℚ)
    (Hpow : ∀ x y : ℚ, x ≤ y → ops.powf x (1 / (522/1000)) ≤ ops.powf y (1 / (522/1000)))
    (Hsm : ∀ x y : ℚ, 0 ≤ x → x ≤ y → ops.sqrt x ≤ ops.sqrt y)
    (Hsn : ∀ x : ℚ, 0 ≤ x → 0 ≤ ops.sqrt x)
    (HD : 0 < ops.powf pipe.id_in (2582/1000))
    (HL : 0 ≤ L) (Hup : 0 < up + P_ATM_PSIA) (Hd : 0 < pipe.id_in)
    (Hq1 : 0 < q1) (Hle : q1 ≤ q2) :
    (sizePipeRow ops q1 L up ref maxV tF rough .naturalGas pipe).velocity ≤
      (sizePipeRow ops q2 L up ref maxV tF rough .naturalGas pipe).velocity ∧
    (sizePipeRow ops q1 L up ref maxV tF rough .naturalGas pipe).deltaP ≤
      (sizePipeRow ops q2 L up ref maxV tF rough .naturalGas pipe).deltaP := by
  have HA : 0 < (mathPI * (pipe.id_in / 12) * (pipe.id_in / 12)) / 4 := by
    have hpi : (0:ℚ) < mathPI := by norm_num [mathPI]
    positivity
  exact fuelGasCandidate_mono ops L up (up + P_ATM_PSIA) pipe.id_in
    ((mathPI * (pipe.id_in / 12) * (pipe.id_in / 12)) / 4) q1 q2
    Hpow Hsm Hsn HD HL Hup HA Hq1 Hle

/-- Witness for the amended C9 at a concrete fuel-gas input with the
identity-like primitive interpretation (monotone and nonnegative). -/
theorem c9_monotonicity_witness :
    (sizePipeRow idOps 1 100 50 40 50 70 (15/100000) GasType.naturalGas pipeF).velocity ≤
      (sizePipeRow idOps 2 100 50 40 50 70 (15/100000) GasType.naturalGas pipeF).velocity ∧
    (sizePipeRow idOps 1 100 50 40 50 70 (15/100000) GasType.naturalGas pipeF).deltaP ≤
      (sizePipeRow idOps 2 100 50 40 50 70 (15/100000) GasType.naturalGas pipeF).deltaP :=
  c9_monotonicity idOps 100 50 40 50 70 (15/100000) pipeF 1 2
    (fun x y h => h) (fun x y _ h => h) (fun x h => h)
    (by norm_num [idOps, pipeF]) (by norm_num)
    (by norm_num [P_ATM_PSIA]) (by norm_num [pipeF]) (by norm_num) (by norm_num)

end GasSizing
